import Mathlib

/-!
Shallow embedding of the system-bridge connector client
(`systembridgeconnector`): the WebSocket listener dispatch
(`_callback_message`), the read path (`receive_message`), the
request sender (`send_message`) with its correlator table, the
composite `get_data` orchestration, the HTTP status mapping
(`http_client.request`), the version probe (`version.py`), and the
exception class hierarchy (`exceptions.py`).

Pure data is translated directly; the surrounding asyncio event loop is
replaced by explicit oracle inputs (the fate of a request's future, the
state of the listener task, the HTTP transport outcome) so that every
definition is an executable function of its inputs.
-/

namespace SystemBridge

/-- A JSON object, abstracted as a finite list of key/value pairs.
Values are abstracted to strings: no claim inspects the interior of a
payload object, only its identity and shape. -/
structure Obj where
  fields : List (String × String)
deriving DecidableEq

/-- The payload shapes `_callback_message` distinguishes with
`isinstance(message[EventKey.DATA], list)`: a JSON array of objects, or a
single JSON object. -/
inductive Payload
  | obj (o : Obj)
  | arr (elems : List Obj)
deriving DecidableEq

/-- The result of applying a registered model dataclass constructor
`model_cls(**data)`: the class name together with the raw object. -/
structure ModelInstance where
  cls : String
  fields : Obj
deriving DecidableEq

/-- An inbound frame as decoded from one WebSocket text message.
`type` is accessed with `message[EventKey.TYPE]` in the source and is
modelled as required; the remaining keys are optional. -/
structure Message where
  id : Option String
  type : String
  subtype : Option String
  module : Option String
  message : Option String
  data : Option Payload
deriving DecidableEq

/-- An outbound request frame (`Request` dataclass): token, id, event,
and a JSON-object payload. -/
structure Request where
  token : String
  id : String
  event : String
  data : Obj
deriving DecidableEq

/-- The `data` slot of a `Response`: absent, the raw wire payload, the
payload mapped through a model class (list or scalar), or the echo of the
original request attached to a synthesized timeout response. -/
inductive RData
  | absent
  | raw (p : Payload)
  | modelList (xs : List ModelInstance)
  | modelOne (x : ModelInstance)
  | reqEcho (r : Request)
deriving DecidableEq

/-- The `Response` dataclass built by the listener (`Response(**message)`)
or synthesized by `send_message`. -/
structure Response where
  id : Option String
  type : String
  subtype : Option String
  module : Option String
  message : Option String
  data : RData
deriving DecidableEq

/-- What the library delivers to the push callback: a list of model
instances (array payload), a single instance (object payload), or - in
the `accept_other_types` branch - a value built from the whole message
(abstracted to the message's type string). -/
inductive Delivered
  | list (xs : List ModelInstance)
  | one (x : ModelInstance)
  | whole (typeName : String)
deriving DecidableEq

/-- An `asyncio.Future[Response]` correlator slot: pending or resolved.
`future.set_result` on a resolved future raises `InvalidStateError`,
which the listener swallows. -/
inductive FutureState
  | pending
  | done (r : Response)
deriving DecidableEq

/-- One entry of `self._responses`: the future and the optional expected
response type. -/
abbrev Entry := FutureState × Option String

/-- The pending-request table `self._responses : dict[str, (future, response_type)]`. -/
abbrev Table := List (String × Entry)

/-- Dictionary lookup (`dict.get`). -/
def lookupAssoc {α : Type} : List (String × α) → String → Option α
  | [], _ => none
  | kv :: rest, k => if kv.1 = k then some kv.2 else lookupAssoc rest k

/-- Dictionary key removal (`dict.pop`, total version). -/
def eraseAssoc {α : Type} : List (String × α) → String → List (String × α)
  | [], _ => []
  | kv :: rest, k => if kv.1 = k then eraseAssoc rest k else kv :: eraseAssoc rest k

/-- Dictionary key assignment (`d[k] = v`). -/
def insertAssoc {α : Type} (t : List (String × α)) (k : String) (v : α) :
    List (String × α) :=
  (k, v) :: eraseAssoc t k

/-- The websocket errors of `exceptions.py` as raised on the message
plane, with the payload each call site attaches. -/
inductive WErr
  | authentication (m : Option String)
  | connectionClosed
  | connectionError
  | badMessage
  | dataMissing
deriving DecidableEq

/-- `MODEL_MAP` from `const.py`: module name to model class name. -/
def MODEL_MAP : List (String × String) :=
  [ ("battery", "Battery"), ("cpu", "CPU"), ("data", "ModulesData"),
    ("disks", "Disks"), ("displays", "Display"), ("gpus", "GPU"),
    ("keyboard_key", "KeyboardKey"), ("keyboard_text", "KeyboardText"),
    ("media_directories", "MediaDirectory"), ("media_file", "MediaFile"),
    ("media_files", "MediaFiles"), ("media", "Media"),
    ("memory", "Memory"), ("networks", "Networks"),
    ("notification", "Notification"), ("open_path", "OpenPath"),
    ("open_url", "OpenUrl"), ("processes", "Process"),
    ("response", "Response"), ("sensors", "Sensors"),
    ("system", "System") ]

/-- `model_cls(**data)` applied per payload shape: element-wise over an
array (`[model_cls(**data) for data in message[DATA]]`), directly over an
object. -/
def deliverPayload (cls : String) (p : Payload) : Delivered :=
  match p with
  | .arr es => .list (es.map (fun o => ⟨cls, o⟩))
  | .obj o => .one ⟨cls, o⟩

/-- The same mapping used when the listener rewrites `response.data` for a
correlated `DATA_UPDATE` response. -/
def mapData (cls : String) (p : Payload) : RData :=
  match p with
  | .arr es => .modelList (es.map (fun o => ⟨cls, o⟩))
  | .obj o => .modelOne ⟨cls, o⟩

/-- The typed response the correlator block of `_callback_message` builds:
`Response(**message)`, then - when the frame is a `DATA_UPDATE` with a
module and non-null data - `data` replaced by the mapped model(s); an
unknown module only logs a warning and keeps the raw data. -/
def buildResponse (msg : Message) : Response :=
  let base : Response :=
    ⟨msg.id, msg.type, msg.subtype, msg.module, msg.message,
      (match msg.data with | none => .absent | some p => .raw p)⟩
  match msg.module, msg.data with
  | some m, some p =>
    if msg.type = "DATA_UPDATE" then
      match lookupAssoc MODEL_MAP m with
      | none => base
      | some cls => { base with data := mapData cls p }
    else base
  | _, _ => base

/-- Observable effect of `_callback_message` on one frame: the updated
table, the slot fulfilled (if any), the push-callback invocations, and
the exception raised (if any). -/
structure StepResult where
  table : Table
  fulfilled : Option (String × Response)
  callbackCalls : List (String × Delivered)
  raised : Option WErr
deriving DecidableEq

/-- The correlator block of `_callback_message` (lines 457-502): if the
frame's id is present and has an entry, and the entry's expected response
type is not `None` and equals the frame's type, build the typed response
and `future.set_result` it (`InvalidStateError` on an already-resolved
future is swallowed). -/
def correlate (t : Table) (msg : Message) : Table × Option (String × Response) :=
  match msg.id with
  | none => (t, none)
  | some i =>
    match lookupAssoc t i with
    | none => (t, none)
    | some (fut, rtype) =>
      match rtype with
      | none => (t, none)
      | some rt =>
        if rt = msg.type then
          match fut with
          | .pending =>
            let resp := buildResponse msg
            (insertAssoc t i (.done resp, some rt), some (i, resp))
          | .done _ => (t, none)
        else (t, none)

/-- The `accept_other_types` fallthrough of `_callback_message`: deliver a
value built from the whole message under the event-type key. -/
def otherTypesCalls (acceptOther hasCb : Bool) (msg : Message) :
    List (String × Delivered) :=
  if acceptOther && hasCb then [(msg.type, .whole msg.type)] else []

/-- The dispatch chain of `_callback_message` (lines 504-569), run on
every frame after the correlator block: `ERROR` frames log or raise
authentication; `DATA_UPDATE` frames with non-null data are decoded via
`MODEL_MAP` and delivered to the callback (unknown module: dropped);
everything else goes to the `accept_other_types` branch. -/
def dispatch (acceptOther hasCb : Bool) (msg : Message) :
    List (String × Delivered) × Option WErr :=
  if msg.type = "ERROR" then
    if msg.subtype = some "LISTENER_ALREADY_REGISTERED" then ([], none)
    else if msg.subtype = some "BAD_TOKEN" ∨ msg.subtype = some "BAD_API_KEY" then
      ([], some (.authentication msg.message))
    else ([], none)
  else
    match msg.data with
    | some p =>
      if msg.type = "DATA_UPDATE" then
        match msg.module with
        | none => ([], none)
        | some m =>
          match lookupAssoc MODEL_MAP m with
          | none => ([], none)
          | some cls => (if hasCb then [(m, deliverPayload cls p)] else [], none)
      else (otherTypesCalls acceptOther hasCb msg, none)
    | none => (otherTypesCalls acceptOther hasCb msg, none)

/-- `_callback_message` on one decoded frame: the correlator block runs
first, then - with no early return in the source - the dispatch chain
runs on the same frame. -/
def callback_message (acceptOther hasCb : Bool) (t : Table) (msg : Message) :
    StepResult :=
  let corr := correlate t msg
  let disp := dispatch acceptOther hasCb msg
  ⟨corr.1, corr.2, disp.1, disp.2⟩

/-- The kinds of `aiohttp` WebSocket messages `receive_message`
distinguishes, with the decoded JSON attached to text frames. -/
inductive WSFrame
  | text (m : Message)
  | binary
  | closeFrame
  | closedFrame
  | closingFrame
  | errorFrame
deriving DecidableEq

/-- What `await self._websocket.receive()` produced: a frame, or the
`RuntimeError` that `receive_message` converts to `None`. -/
inductive RecvInput
  | runtimeErr
  | frame (f : WSFrame)
deriving DecidableEq

/-- `receive_message`: closed connection raises `ConnectionClosed`;
`ERROR` frames raise `ConnectionError`; close/closed/closing raise
`ConnectionClosed`; a text frame whose JSON has `type = ERROR` and
`subtype` `BAD_TOKEN` or `BAD_API_KEY` raises `Authentication` before the
message is returned; any other frame kind raises `BadMessage`. -/
def receive_message (connected : Bool) (inp : RecvInput) :
    Except WErr (Option Message) :=
  if !connected then .error .connectionClosed
  else
    match inp with
    | .runtimeErr => .ok none
    | .frame .errorFrame => .error .connectionError
    | .frame .closeFrame => .error .connectionClosed
    | .frame .closedFrame => .error .connectionClosed
    | .frame .closingFrame => .error .connectionClosed
    | .frame .binary => .error .badMessage
    | .frame (.text m) =>
      if m.type = "ERROR" ∧
          (m.subtype = some "BAD_TOKEN" ∨ m.subtype = some "BAD_API_KEY") then
        .error (.authentication m.message)
      else .ok (some m)

/-- One iteration of `listen_for_messages`: receive one frame and, when it
yields a dict, hand it to `_callback_message`; exceptions from either
step propagate out of the listener. When `receive_message` raises, the
callback never runs, so the table is untouched and no slot is fulfilled. -/
def process_frame (connected acceptOther hasCb : Bool) (t : Table)
    (inp : RecvInput) : Except WErr StepResult :=
  match receive_message connected inp with
  | .error e => .error e
  | .ok none => .ok ⟨t, none, [], none⟩
  | .ok (some m) =>
    let r := callback_message acceptOther hasCb t m
    match r.raised with
    | some e => .error e
    | none => .ok r

/-- The fate of a request's future while `send_message` awaits it with
`asyncio.wait_for(future, timeout=8.0)`: resolved by the listener, or the
8-second deadline fired. -/
inductive WaitOutcome
  | fulfilled (r : Response)
  | timedOut
deriving DecidableEq

/-- The pair `send_message` leaves behind: the response handed to the
caller and the resulting pending-request table. -/
structure SendResult where
  resp : Response
  table : Table
deriving DecidableEq

/-- The synthetic response `send_message` returns when the 8-second wait
times out: `type=ERROR`, `subtype="TIMEOUT"`, the request echoed as data. -/
def timeout_response (req : Request) : Response :=
  ⟨some req.id, "ERROR", some "TIMEOUT", none,
    some "Timeout waiting for response", .reqEcho req⟩

/-- The locally synthesized response for `wait_for_response=False`:
`type="N/A"`, `message="Message sent"`, empty data. -/
def na_response (reqId : String) : Response :=
  ⟨some reqId, "N/A", none, none, some "Message sent", .raw (.obj ⟨[]⟩)⟩

/-- `send_message`: raises `ConnectionClosed` when not connected;
registers `self._responses[request.id] = (future, response_type)` before
the socket write; when waiting, returns either the resolved response or
the synthetic timeout response and pops the entry in the `finally`; when
not waiting, returns the `N/A` response with the entry still registered. -/
def send_message (connected : Bool) (t : Table) (event reqId : String)
    (d : Obj) (tok : String) (wait : Bool) (rtype : Option String)
    (outcome : WaitOutcome) : Except WErr SendResult :=
  if !connected then .error .connectionClosed
  else
    let req : Request := ⟨tok, reqId, event, d⟩
    let t1 := insertAssoc t reqId (.pending, rtype)
    if wait then
      match outcome with
      | .fulfilled r => .ok ⟨r, eraseAssoc t1 reqId⟩
      | .timedOut => .ok ⟨timeout_response req, eraseAssoc t1 reqId⟩
    else .ok ⟨na_response reqId, t1⟩

/-- `application_update`: fire-and-forget `APPLICATION_UPDATE`. -/
def application_update (connected : Bool) (t : Table) (tok reqId : String)
    (model : Obj) (outcome : WaitOutcome) : Except WErr SendResult :=
  send_message connected t "APPLICATION_UPDATE" reqId model tok false none outcome

/-- `exit_backend`: fire-and-forget `EXIT_APPLICATION` with empty data. -/
def exit_backend (connected : Bool) (t : Table) (tok reqId : String)
    (outcome : WaitOutcome) : Except WErr SendResult :=
  send_message connected t "EXIT_APPLICATION" reqId ⟨[]⟩ tok false none outcome

/-- `media_control`: fire-and-forget `MEDIA_CONTROL`. -/
def media_control (connected : Bool) (t : Table) (tok reqId : String)
    (model : Obj) (outcome : WaitOutcome) : Except WErr SendResult :=
  send_message connected t "MEDIA_CONTROL" reqId model tok false none outcome

/-- State of the background listener task observed by `get_data`'s
polling loop and its `finally` block. -/
inductive ListenerState
  | running
  | doneClean
  | doneExc (e : WErr)
deriving DecidableEq

/-- How `get_data`'s polling loop ended: every requested module was set,
the loop broke because `listener_task.done()`, or `asyncio.timeout`
fired. -/
inductive LoopExit
  | completed
  | brokeListenerDone
  | timedOut
deriving DecidableEq

/-- The `ModulesData` aggregate: the modules that the push callback
`handle_module` has assigned so far. -/
abbrev MData := List (String × Delivered)

/-- `getattr(modules_data, module_name)`. -/
def getModule (d : MData) (m : String) : Option Delivered :=
  lookupAssoc d m

/-- The completeness predicate of `get_data`'s polling loop:
`all(getattr(modules_data, m) is not None for m in model.modules)`. -/
def allModulesSet (d : MData) (M : List String) : Bool :=
  M.all (fun m => (getModule d m).isSome)

/-- The outcome structure of `get_data` given the oracle inputs: when the
deadline fires, `DataMissing` is raised unless the `finally` block finds
the listener task finished with an exception, which it re-raises
(superseding `DataMissing`); when the loop ends otherwise, the `finally`
block re-raises a listener exception if there is one, else the aggregate
is returned - including the possibly-incomplete aggregate reached by
breaking out when the listener task finished cleanly. -/
def get_data (connected : Bool) (M : List String) (ex : LoopExit)
    (l : ListenerState) (final : MData) : Except WErr MData :=
  if !connected then .error .connectionClosed
  else
    match ex with
    | .timedOut =>
      match l with
      | .doneExc e => .error e
      | _ => .error .dataMissing
    | _ =>
      match l with
      | .doneExc e => .error e
      | _ => .ok final

/-- The status label attached to a `ConnectionErrorException` payload by
`http_client.request`: a numeric HTTP status, `"timeout"`, or
`"connection error"`. -/
inductive StatusLabel
  | num (n : Nat)
  | timeoutLabel
  | connErrLabel
deriving DecidableEq

/-- The `{method, url}` pair preserved in every HTTP error payload. -/
structure ReqInfo where
  method : String
  url : String
deriving DecidableEq

/-- The structured `{request, status}` payload of the HTTP errors. -/
structure HttpErrPayload where
  request : ReqInfo
  status : StatusLabel
deriving DecidableEq

/-- The HTTP-plane errors of `exceptions.py`, with payloads. -/
inductive HErr
  | badRequest (p : HttpErrPayload)
  | authentication (p : HttpErrPayload)
  | connectionError (p : HttpErrPayload)
deriving DecidableEq

/-- What the transport did for one HTTP call: a response with a status,
the 20-second `asyncio.timeout` firing, or a transport-level failure
(`ClientConnectorError`, `ConnectionResetError`, `ServerDisconnectedError`). -/
inductive HttpOutcome
  | status (n : Nat)
  | timedOut
  | transportFailure
deriving DecidableEq

/-- `HTTPClient.request`: statuses outside `(200, 201, 202, 204)` raise -
`400` a `BadRequest`, `401`/`403` an `Authentication`, anything else a
`ConnectionError` with the numeric status; a timeout or transport failure
raises `ConnectionError` with the corresponding status label. -/
def request (method url : String) (oc : HttpOutcome) : Except HErr Nat :=
  match oc with
  | .timedOut => .error (.connectionError ⟨⟨method, url⟩, .timeoutLabel⟩)
  | .transportFailure => .error (.connectionError ⟨⟨method, url⟩, .connErrLabel⟩)
  | .status n =>
    if n = 200 ∨ n = 201 ∨ n = 202 ∨ n = 204 then .ok n
    else if n = 400 then .error (.badRequest ⟨⟨method, url⟩, .num n⟩)
    else if n = 401 ∨ n = 403 then .error (.authentication ⟨⟨method, url⟩, .num n⟩)
    else .error (.connectionError ⟨⟨method, url⟩, .num n⟩)

/-- Character-list prefix test (Python's `str.startswith`). -/
def isPrefixList : List Char → List Char → Bool
  | [], _ => true
  | _ :: _, [] => false
  | c :: cs, d :: ds => c == d && isPrefixList cs ds

/-- Python's `str.startswith`, over the string's character data. -/
def strStartsWith (s pre : String) : Bool :=
  isPrefixList pre.data s.data

/-- Parse a non-empty run of decimal digits. -/
def digitsToNatAux : List Char → Nat → Option Nat
  | [], acc => some acc
  | c :: cs, acc =>
    if c.isDigit then digitsToNatAux cs (acc * 10 + (c.toNat - 48)) else none

/-- Parse a decimal numeral; empty input is rejected. -/
def digitsToNat (cs : List Char) : Option Nat :=
  match cs with
  | [] => none
  | _ => digitsToNatAux cs 0

/-- Split a character list on `.` separators. -/
def splitOnDotAux : List Char → List Char → List (List Char)
  | [], cur => [cur.reverse]
  | c :: rest, cur =>
    if c == '.' then cur.reverse :: splitOnDotAux rest []
    else splitOnDotAux rest (c :: cur)

/-- Dotted-numeral version parsing (`packaging.version.parse` restricted
to the `major.minor.patch` shapes the probe compares against). -/
def parseVer (s : String) : Option (Nat × Nat × Nat) :=
  match (splitOnDotAux s.data []).map digitsToNat with
  | [some a, some b, some c] => some (a, b, c)
  | _ => none

/-- Lexicographic `>=` on parsed versions. -/
def verGe (a b : Nat × Nat × Nat) : Bool :=
  if a.1 < b.1 then false
  else if b.1 < a.1 then true
  else if a.2.1 < b.2.1 then false
  else if b.2.1 < a.2.1 then true
  else Nat.ble b.2.2 a.2.2

/-- The decoded JSON body the probe reads a `version` field from (the
`/information` dict, or the `System` record of `/api/data/system`). -/
structure InfoBody where
  version : Option String
deriving DecidableEq

/-- Outcome of one `HTTPClient.get` call issued by the probe. -/
inductive FetchResult
  | ok (body : InfoBody)
  | err (e : HErr)
deriving DecidableEq

/-- The probe's 404 test: the caught exception is a
`ConnectionErrorException` whose payload carries `status == 404`. -/
def is404 (e : HErr) : Bool :=
  match e with
  | .connectionError p => decide (p.status = .num 404)
  | _ => false

/-- Errors surfaced by the probe: an HTTP error propagated from the
client, or `packaging` failing to parse a version string. -/
inductive VErr
  | http (e : HErr)
  | parseFailure
deriving DecidableEq

/-- `check_version_2`: `GET /information`; a `version` starting with `2`
or `v2` is returned, anything else yields `None`; a
`ConnectionErrorException` with status 404 yields `None`, every other
exception propagates (only `ConnectionErrorException` is caught). -/
def check_version_2 (infoR : FetchResult) : Except HErr (Option String) :=
  match infoR with
  | .ok b =>
    match b.version with
    | some v =>
      if strStartsWith v "2" || strStartsWith v "v2" then .ok (some v)
      else .ok none
    | none => .ok none
  | .err e => if is404 e then .ok none else .error e

/-- `check_version`: `GET /api/data/system`, decode the `System` record;
a parsed `version >= 3.0.0` is returned, else `None`; 404 yields `None`,
other errors propagate. -/
def check_version (sysR : FetchResult) : Except VErr (Option String) :=
  match sysR with
  | .ok b =>
    match b.version with
    | some v =>
      match parseVer v with
      | none => .error .parseFailure
      | some pv => if verGe pv (3, 0, 0) then .ok (some v) else .ok none
    | none => .ok none
  | .err e => if is404 e then .ok none else .error (.http e)

/-- A probe run: the boolean (or error) outcome together with the
endpoints GET in calling order. -/
structure ProbeRun where
  result : Except VErr Bool
  trace : List String

/-- `check_supported`: `await self.check_version_2() is None and (version
:= await self.check_version()) is not None` - so `/information` is
queried first and, thanks to `and` short-circuiting, `/api/data/system`
is only queried when no v2 server was detected; a detected version is
compared against `SUPPORTED_VERSION = "4.0.2"`. -/
def check_supported (infoR sysR : FetchResult) : ProbeRun :=
  match check_version_2 infoR with
  | .error e => ⟨.error (.http e), ["/information"]⟩
  | .ok (some _) => ⟨.ok false, ["/information"]⟩
  | .ok none =>
    match check_version sysR with
    | .error e => ⟨.error e, ["/information", "/api/data/system"]⟩
    | .ok none => ⟨.ok false, ["/information", "/api/data/system"]⟩
    | .ok (some v) =>
      match parseVer v with
      | none => ⟨.error .parseFailure, ["/information", "/api/data/system"]⟩
      | some pv => ⟨.ok (verGe pv (4, 0, 2)), ["/information", "/api/data/system"]⟩

/-- The Python classes relevant to the error taxonomy of
`exceptions.py`: the two builtin roots and the six library classes. -/
inductive PyClass
  | baseExceptionCls
  | exceptionCls
  | authenticationException
  | badMessageException
  | badRequestException
  | connectionClosedException
  | connectionErrorException
  | dataMissingException
deriving DecidableEq

/-- The declared base class of each class: Python's builtin `Exception`
derives from `BaseException`, and every class of `exceptions.py` is
declared as `class X(BaseException)`. -/
def parentOf : PyClass → Option PyClass
  | .baseExceptionCls => none
  | .exceptionCls => some .baseExceptionCls
  | .authenticationException => some .baseExceptionCls
  | .badMessageException => some .baseExceptionCls
  | .badRequestException => some .baseExceptionCls
  | .connectionClosedException => some .baseExceptionCls
  | .connectionErrorException => some .baseExceptionCls
  | .dataMissingException => some .baseExceptionCls

/-- The method-resolution ancestors of each class (itself included),
read off the single-inheritance chains above. -/
def ancestors : PyClass → List PyClass
  | .baseExceptionCls => [.baseExceptionCls]
  | .exceptionCls => [.exceptionCls, .baseExceptionCls]
  | .authenticationException => [.authenticationException, .baseExceptionCls]
  | .badMessageException => [.badMessageException, .baseExceptionCls]
  | .badRequestException => [.badRequestException, .baseExceptionCls]
  | .connectionClosedException => [.connectionClosedException, .baseExceptionCls]
  | .connectionErrorException => [.connectionErrorException, .baseExceptionCls]
  | .dataMissingException => [.dataMissingException, .baseExceptionCls]

/-- Python's subclass test, as used by `except` clause matching. -/
def isSubclassOf (c d : PyClass) : Bool :=
  (ancestors c).contains d

/-- Whether an `except Exception` handler catches an instance of `c`. -/
def caughtByExceptException (c : PyClass) : Bool :=
  isSubclassOf c .exceptionCls

/-- The six error kinds `exceptions.py` surfaces to callers. -/
def libraryExceptions : List PyClass :=
  [ .authenticationException, .badMessageException, .badRequestException,
    .connectionClosedException, .connectionErrorException,
    .dataMissingException ]

theorem lookup_eraseAssoc {α : Type} (t : List (String × α)) (k : String) :
    lookupAssoc (eraseAssoc t k) k = none := by
  induction t with
  | nil => rfl
  | cons kv rest ih =>
    by_cases h : kv.1 = k
    · simpa [eraseAssoc, h] using ih
    · simpa [eraseAssoc, lookupAssoc, h] using ih

theorem erase_eraseAssoc {α : Type} (t : List (String × α)) (k : String) :
    eraseAssoc (eraseAssoc t k) k = eraseAssoc t k := by
  induction t with
  | nil => rfl
  | cons kv rest ih =>
    by_cases h : kv.1 = k
    · simpa [eraseAssoc, h] using ih
    · simpa [eraseAssoc, h] using ih

theorem erase_insertAssoc {α : Type} (t : List (String × α)) (k : String) (v : α) :
    eraseAssoc (insertAssoc t k v) k = eraseAssoc t k := by
  simp [insertAssoc, eraseAssoc, erase_eraseAssoc]

theorem lookup_insertAssoc {α : Type} (t : List (String × α)) (k : String) (v : α) :
    lookupAssoc (insertAssoc t k v) k = some v := by
  simp [insertAssoc, lookupAssoc]

/-- C1 (amended): a frame whose id and type match a registered correlator
entry fulfills the waiting (pending) slot, and - provided the frame's
type is neither `DATA_UPDATE` nor `ERROR` and `accept_other_types` is
off - it is not delivered to the push callback and raises nothing. The
source has no early return after fulfillment, so matched `DATA_UPDATE`
frames fall through to the push branch (see the counterexample). -/
theorem matched_frame_fulfills_no_callback (t : Table) (i : String)
    (msg : Message) (hasCb : Bool)
    (hid : msg.id = some i)
    (hentry : lookupAssoc t i = some (.pending, some msg.type))
    (hnd : msg.type ≠ "DATA_UPDATE") (hne : msg.type ≠ "ERROR") :
    (callback_message false hasCb t msg).fulfilled = some (i, buildResponse msg) ∧
    (callback_message false hasCb t msg).callbackCalls = [] ∧
    (callback_message false hasCb t msg).raised = none := by
  cases hdata : msg.data <;>
    simp [callback_message, correlate, dispatch, otherTypesCalls,
      hid, hentry, hnd, hne, hdata]

/-- C1 counterexample: a frame whose id and type (`DATA_UPDATE`) match a
registered correlator entry both fulfills the slot and is delivered to
the push callback - the claim's "consumed by the correlator only" fails. -/
theorem matched_data_update_also_delivered :
    (callback_message false true
        [("x", (.pending, some "DATA_UPDATE"))]
        ⟨some "x", "DATA_UPDATE", none, some "cpu", none,
          some (.obj ⟨[("usage", "50")]⟩)⟩).fulfilled.isSome = true ∧
    (callback_message false true
        [("x", (.pending, some "DATA_UPDATE"))]
        ⟨some "x", "DATA_UPDATE", none, some "cpu", none,
          some (.obj ⟨[("usage", "50")]⟩)⟩).callbackCalls
      = [("cpu", .one ⟨"CPU", ⟨[("usage", "50")]⟩⟩)] :=
  ⟨rfl, rfl⟩

/-- C1 witness: a matched `NOTIFICATION_SENT` frame fulfills its slot and
triggers no callback. -/
theorem matched_frame_fulfills_no_callback_witness :
    (callback_message false true
        [("test", (.pending, some "NOTIFICATION_SENT"))]
        ⟨some "test", "NOTIFICATION_SENT", none, none, none, none⟩).callbackCalls
      = [] :=
  (matched_frame_fulfills_no_callback
    [("test", (.pending, some "NOTIFICATION_SENT"))] "test"
    ⟨some "test", "NOTIFICATION_SENT", none, none, none, none⟩ true
    rfl rfl (by decide) (by decide)).2.1

/-- C2 (amended): with a pending entry registered under the frame's id,
the listener fulfills the slot exactly when the entry's expected
response-type is present (not `None`) and equals the frame's type; an
entry with no filter is never fulfilled by the listener, and a frame
with the same id but a different type does not fulfill the slot. -/
theorem fulfillment_requires_matching_filter (t : Table) (i : String)
    (rt : Option String) (msg : Message) (aot hasCb : Bool)
    (hid : msg.id = some i)
    (hentry : lookupAssoc t i = some (.pending, rt)) :
    ((callback_message aot hasCb t msg).fulfilled ≠ none ↔ rt = some msg.type) := by
  cases rt with
  | none => simp [callback_message, correlate, hid, hentry]
  | some r =>
    by_cases h : r = msg.type
    · subst h
      simp [callback_message, correlate, hid, hentry]
    · simp [callback_message, correlate, hid, hentry, h]

/-- C2 counterexample: an entry registered with no response-type filter
(`response_type = None`) is not fulfilled by a frame carrying its id -
the claim's "also when the entry has no expected response-type filter"
fails. -/
theorem nil_filter_never_fulfills :
    (callback_message false false
        [("x", ((.pending : FutureState), (none : Option String)))]
        ⟨some "x", "DATA_GET", none, none, none, none⟩).fulfilled = none :=
  rfl

/-- C2 witness: an entry expecting `FILES` is fulfilled by a `FILES`
frame with its id. -/
theorem fulfillment_requires_matching_filter_witness :
    (callback_message false false
        [("a", ((.pending : FutureState), some "FILES"))]
        ⟨some "a", "FILES", none, none, none, none⟩).fulfilled ≠ none :=
  (fulfillment_requires_matching_filter
    [("a", (.pending, some "FILES"))] "a" (some "FILES")
    ⟨some "a", "FILES", none, none, none, none⟩ false false
    rfl rfl).mpr rfl

/-- C3 (confirmed): an inbound `ERROR` frame with subtype `BAD_TOKEN` or
`BAD_API_KEY` makes `receive_message` raise `Authentication` before the
frame is handed to `_callback_message`, for every correlator table -
in particular one holding a matching waiting entry - so the waiting
request never receives a normal fulfillment from such a frame. -/
theorem bad_token_frame_raises_authentication (aot hasCb : Bool)
    (t : Table) (m : Message) (htype : m.type = "ERROR")
    (hsub : m.subtype = some "BAD_TOKEN" ∨ m.subtype = some "BAD_API_KEY") :
    receive_message true (.frame (.text m)) = .error (.authentication m.message) ∧
    process_frame true aot hasCb t (.frame (.text m))
      = .error (.authentication m.message) := by
  have hcond : m.type = "ERROR" ∧
      (m.subtype = some "BAD_TOKEN" ∨ m.subtype = some "BAD_API_KEY") :=
    ⟨htype, hsub⟩
  have hr : receive_message true (.frame (.text m))
      = .error (.authentication m.message) := by
    simp [receive_message, hcond]
  exact ⟨hr, by unfold process_frame; rw [hr]⟩

/-- C3 witness: a `BAD_TOKEN` frame whose id and type match the waiting
entry still raises `Authentication` on the read path. -/
theorem bad_token_frame_raises_authentication_witness :
    process_frame true false true [("test", (.pending, some "ERROR"))]
        (.frame (.text ⟨some "test", "ERROR", some "BAD_TOKEN", none,
          some "Invalid token", none⟩))
      = .error (.authentication (some "Invalid token")) :=
  (bad_token_frame_raises_authentication false true
    [("test", (.pending, some "ERROR"))]
    ⟨some "test", "ERROR", some "BAD_TOKEN", none, some "Invalid token", none⟩
    rfl (Or.inl rfl)).2

/-- C4 (confirmed): a waiting `send_message` whose slot is not fulfilled
within the 8-second deadline returns (does not raise) a synthetic
response with `type=ERROR` and `subtype="TIMEOUT"` echoing the request
id, and the correlator entry is removed on exit whether the wait was
fulfilled or timed out. -/
theorem wait_timeout_synthesizes_error_response (t : Table)
    (e i : String) (d : Obj) (tok : String) (rt : Option String)
    (oc : WaitOutcome) :
    (oc = .timedOut →
      send_message true t e i d tok true rt oc
        = .ok ⟨timeout_response ⟨tok, i, e, d⟩, eraseAssoc t i⟩) ∧
    (∀ r, oc = .fulfilled r →
      send_message true t e i d tok true rt oc = .ok ⟨r, eraseAssoc t i⟩) ∧
    (timeout_response ⟨tok, i, e, d⟩).type = "ERROR" ∧
    (timeout_response ⟨tok, i, e, d⟩).subtype = some "TIMEOUT" ∧
    (timeout_response ⟨tok, i, e, d⟩).id = some i ∧
    lookupAssoc (eraseAssoc t i) i = none := by
  refine ⟨?_, ?_, rfl, rfl, rfl, lookup_eraseAssoc t i⟩
  · intro h
    subst h
    unfold send_message
    simp [erase_insertAssoc]
  · intro r h
    subst h
    unfold send_message
    simp [erase_insertAssoc]

/-- C4 witness: a timed-out wait for `NOTIFICATION_SENT` yields the
synthetic timeout response and an empty table. -/
theorem wait_timeout_synthesizes_error_response_witness :
    send_message true [] "NOTIFICATION" "test" ⟨[]⟩ "tok" true
        (some "NOTIFICATION_SENT") .timedOut
      = .ok ⟨timeout_response ⟨"tok", "test", "NOTIFICATION", ⟨[]⟩⟩, []⟩ := by
  have h := (wait_timeout_synthesizes_error_response []
    "NOTIFICATION" "test" ⟨[]⟩ "tok" (some "NOTIFICATION_SENT") .timedOut).1 rfl
  simpa using h

/-- C5 (amended): every fire-and-forget operation returns the locally
synthesized `N/A` response, but `send_message` registers a correlator
entry (with no response-type filter) for the request id before the
write and, with `wait_for_response=False`, never removes it: the entry
remains in the pending table. -/
theorem fire_and_forget_na_entry_registered (t : Table) (tok i : String)
    (mdl : Obj) (oc : WaitOutcome) :
    application_update true t tok i mdl oc
      = .ok ⟨na_response i, insertAssoc t i (.pending, none)⟩ ∧
    exit_backend true t tok i oc
      = .ok ⟨na_response i, insertAssoc t i (.pending, none)⟩ ∧
    media_control true t tok i mdl oc
      = .ok ⟨na_response i, insertAssoc t i (.pending, none)⟩ ∧
    (na_response i).type = "N/A" ∧
    lookupAssoc (insertAssoc t i ((.pending : FutureState), (none : Option String))) i
      = some (.pending, none) := by
  refine ⟨?_, ?_, ?_, rfl, lookup_insertAssoc t i _⟩ <;>
    simp [application_update, exit_backend, media_control, send_message]

/-- C5 counterexample: after a fire-and-forget `media_control` on an
empty table, the request id still has a registered correlator entry -
the claim's "no correlator entry is left registered / table unchanged"
fails. -/
theorem fire_and_forget_leaves_entry :
    (media_control true [] "tok" "test" ⟨[("action", "play")]⟩ .timedOut).map
        (fun r => lookupAssoc r.table "test")
      = .ok (some (.pending, none)) :=
  rfl

/-- C6 (amended): `get_data` returns the aggregate with every requested
module populated when polling completes; raises `DataMissing` when the
deadline elapses while the listener has no exception; re-raises the
listener task's exception whenever it ended with one; and additionally
returns the possibly-incomplete aggregate when the polling loop broke
because the listener task completed cleanly before the deadline. -/
theorem get_data_outcomes (M : List String) (ex : LoopExit)
    (l : ListenerState) (final : MData) :
    (∀ e, l = .doneExc e → get_data true M ex l final = .error e) ∧
    (ex = .timedOut → (l = .running ∨ l = .doneClean) →
      get_data true M ex l final = .error .dataMissing) ∧
    (ex = .completed → (l = .running ∨ l = .doneClean) →
      allModulesSet final M = true →
      get_data true M ex l final = .ok final ∧
        ∀ m ∈ M, (getModule final m).isSome = true) ∧
    (ex = .brokeListenerDone → l = .doneClean →
      get_data true M ex l final = .ok final) := by
  refine ⟨?_, ?_, ?_, ?_⟩
  · intro e hl
    subst hl
    cases ex <;> rfl
  · intro hex hl
    subst hex
    rcases hl with h | h <;> subst h <;> rfl
  · intro hex hl hall
    subst hex
    have hmods : ∀ m ∈ M, (getModule final m).isSome = true := by
      simpa [allModulesSet, List.all_eq_true] using hall
    rcases hl with h | h <;> subst h <;> exact ⟨rfl, hmods⟩
  · intro hex hl
    subst hex
    subst hl
    rfl

/-- C6 counterexample: when the polling loop breaks because the listener
task finished cleanly, `get_data` returns normally with the requested
module still unpopulated, and does not raise `DataMissing` - a normal
outcome the claim rules out. -/
theorem get_data_clean_listener_exit_incomplete :
    get_data true ["cpu"] .brokeListenerDone .doneClean [] = .ok [] ∧
    getModule ([] : MData) "cpu" = none :=
  ⟨rfl, rfl⟩

/-- C6 witness: a timed-out `get_data` with the listener still running
raises `DataMissing`. -/
theorem get_data_outcomes_witness :
    get_data true ["cpu"] .timedOut .running [] = .error .dataMissing :=
  (get_data_outcomes ["cpu"] .timedOut .running []).2.1 rfl (Or.inl rfl)

/-- C7 (amended): the HTTP client maps `400` to `BadRequest`, `401`/`403`
to `Authentication`, statuses `200`, `201`, `202`, `204` (and only
those - not every 2xx) to success, and every other status to
`ConnectionError` with the numeric status; a whole-request timeout and a
transport failure raise `ConnectionError` labelled `"timeout"` and
`"connection error"`, both preserving the attempted method and URL. -/
theorem http_status_error_mapping (method url : String) (n : Nat) :
    (request method url .timedOut
      = .error (.connectionError ⟨⟨method, url⟩, .timeoutLabel⟩)) ∧
    (request method url .transportFailure
      = .error (.connectionError ⟨⟨method, url⟩, .connErrLabel⟩)) ∧
    (n = 400 → request method url (.status n)
      = .error (.badRequest ⟨⟨method, url⟩, .num n⟩)) ∧
    ((n = 401 ∨ n = 403) → request method url (.status n)
      = .error (.authentication ⟨⟨method, url⟩, .num n⟩)) ∧
    ((n = 200 ∨ n = 201 ∨ n = 202 ∨ n = 204) →
      request method url (.status n) = .ok n) ∧
    (¬(n = 200 ∨ n = 201 ∨ n = 202 ∨ n = 204) → n ≠ 400 →
      ¬(n = 401 ∨ n = 403) →
      request method url (.status n)
        = .error (.connectionError ⟨⟨method, url⟩, .num n⟩)) := by
  refine ⟨rfl, rfl, ?_, ?_, ?_, ?_⟩
  · intro h
    subst h
    rfl
  · intro h
    rcases h with h | h <;> subst h <;> rfl
  · intro h
    rcases h with h | h | h | h <;> subst h <;> rfl
  · intro hs h400 h4x
    simp only [request]
    rw [if_neg hs, if_neg h400, if_neg h4x]

/-- C7 counterexample: status `206` is a 2xx status, yet the client
raises `ConnectionError` for it - the claim's "every 2xx status is a
success" fails. -/
theorem http_status_206_not_success :
    request "GET" "http://127.0.0.1:9170/test" (.status 206)
      = .error (.connectionError ⟨⟨"GET", "http://127.0.0.1:9170/test"⟩,
          .num 206⟩) :=
  rfl

/-- C7 witness: status `203` (outside the success whitelist and not
400/401/403) maps to `ConnectionError`. -/
theorem http_status_error_mapping_witness :
    request "GET" "http://127.0.0.1:9170/information" (.status 203)
      = .error (.connectionError ⟨⟨"GET", "http://127.0.0.1:9170/information"⟩,
          .num 203⟩) :=
  (http_status_error_mapping "GET" "http://127.0.0.1:9170/information"
    203).2.2.2.2.2 (by decide) (by decide) (by decide)

/-- C8 (amended): the version probe GETs the legacy `/information`
endpoint first (`check_version_2`), and only when that detects no v2
server does it GET `/api/data/system` (`check_version`); on either
endpoint a `ConnectionError` with status 404 is treated as
endpoint-absent (`None`), while any other error propagates. -/
theorem version_probe_order_and_404 (infoR sysR : FetchResult) :
    ((check_supported infoR sysR).trace.head? = some "/information") ∧
    (∀ e, infoR = .err e → is404 e = true →
      (check_supported infoR sysR).trace
        = ["/information", "/api/data/system"]) ∧
    (∀ e, infoR = .err e → is404 e = false →
      (check_supported infoR sysR).result = .error (.http e) ∧
      (check_supported infoR sysR).trace = ["/information"]) ∧
    (∀ e, sysR = .err e → is404 e = true → check_version sysR = .ok none) ∧
    (∀ e, sysR = .err e → is404 e = false →
      check_version sysR = .error (.http e)) := by
  refine ⟨?_, ?_, ?_, ?_, ?_⟩
  · cases h1 : check_version_2 infoR with
    | error e => simp [check_supported, h1]
    | ok o =>
      cases o with
      | some v => simp [check_supported, h1]
      | none =>
        cases h2 : check_version sysR with
        | error e2 => simp [check_supported, h1, h2]
        | ok o2 =>
          cases o2 with
          | none => simp [check_supported, h1, h2]
          | some v =>
            cases h3 : parseVer v <;> simp [check_supported, h1, h2, h3]
  · intro e hinfo h404
    subst hinfo
    have h1 : check_version_2 (.err e) = .ok none := by
      simp [check_version_2, h404]
    cases h2 : check_version sysR with
    | error e2 => simp [check_supported, h1, h2]
    | ok o2 =>
      cases o2 with
      | none => simp [check_supported, h1, h2]
      | some v =>
        cases h3 : parseVer v <;> simp [check_supported, h1, h2, h3]
  · intro e hinfo h404
    subst hinfo
    have h1 : check_version_2 (.err e) = .error e := by
      simp [check_version_2, h404]
    exact ⟨by simp [check_supported, h1], by simp [check_supported, h1]⟩
  · intro e hsys h404
    subst hsys
    simp [check_version, h404]
  · intro e hsys h404
    subst hsys
    simp [check_version, h404]

/-- C8 counterexample: against a v2 backend the probe's only GET is
`/information` - `/api/data/system` is never queried, so the claimed
call order (system endpoint first, `/information` as fallback) fails. -/
theorem version_probe_information_first :
    (check_supported (.ok ⟨some "2.0.0"⟩) (.ok ⟨some "4.0.2"⟩)).trace
        = ["/information"] ∧
    (check_supported (.ok ⟨some "2.0.0"⟩) (.ok ⟨some "4.0.2"⟩)).result
        = .ok false :=
  ⟨rfl, rfl⟩

/-- C8 witness: a 404 on `/information` falls through to
`/api/data/system`, and a non-404 error on `/api/data/system`
propagates. -/
theorem version_probe_order_and_404_witness :
    (check_supported
        (.err (.connectionError ⟨⟨"GET", "http://127.0.0.1:9170/information"⟩,
          .num 404⟩))
        (.ok ⟨some "4.0.2"⟩)).trace
      = ["/information", "/api/data/system"] ∧
    check_version (.err (.badRequest ⟨⟨"GET", "u"⟩, .num 400⟩))
      = .error (.http (.badRequest ⟨⟨"GET", "u"⟩, .num 400⟩)) :=
  ⟨(version_probe_order_and_404
      (.err (.connectionError ⟨⟨"GET", "http://127.0.0.1:9170/information"⟩,
        .num 404⟩))
      (.ok ⟨some "4.0.2"⟩)).2.1 _ rfl rfl,
   (version_probe_order_and_404
      (.ok ⟨some "4.0.2"⟩)
      (.err (.badRequest ⟨⟨"GET", "u"⟩, .num 400⟩))).2.2.2.2 _ rfl rfl⟩

/-- C9 (confirmed): for an unsolicited `DATA_UPDATE` frame with non-null
data, no slot is fulfilled, and with a registered decoder for the
module the push callback receives the decoder applied element-wise
(yielding a list) when the payload is an array and applied directly
when it is an object; with no registered decoder the frame is dropped
without invoking the callback. -/
theorem data_update_push_decoding (aot : Bool) (t : Table) (msg : Message)
    (m : String) (p : Payload)
    (hnoc : msg.id.bind (lookupAssoc t) = none)
    (ht : msg.type = "DATA_UPDATE") (hm : msg.module = some m)
    (hd : msg.data = some p) :
    (callback_message aot true t msg).fulfilled = none ∧
    (∀ cls, lookupAssoc MODEL_MAP m = some cls →
      (callback_message aot true t msg).callbackCalls
        = [(m, deliverPayload cls p)]) ∧
    (∀ cls es, lookupAssoc MODEL_MAP m = some cls → p = .arr es →
      (callback_message aot true t msg).callbackCalls
        = [(m, .list (es.map (fun o => ⟨cls, o⟩)))]) ∧
    (∀ cls o, lookupAssoc MODEL_MAP m = some cls → p = .obj o →
      (callback_message aot true t msg).callbackCalls
        = [(m, .one ⟨cls, o⟩)]) ∧
    (lookupAssoc MODEL_MAP m = none →
      (callback_message aot true t msg).callbackCalls = []) := by
  have hful : (callback_message aot true t msg).fulfilled = none := by
    cases hid : msg.id with
    | none => simp [callback_message, correlate, hid]
    | some i =>
      have : lookupAssoc t i = none := by simpa [hid] using hnoc
      simp [callback_message, correlate, hid, this]
  refine ⟨hful, ?_, ?_, ?_, ?_⟩
  · intro cls hcls
    simp [callback_message, dispatch, ht, hm, hd, hcls]
  · intro cls es hcls hp
    subst hp
    simp [callback_message, dispatch, deliverPayload, ht, hm, hd, hcls]
  · intro cls o hcls hp
    subst hp
    simp [callback_message, dispatch, deliverPayload, ht, hm, hd, hcls]
  · intro hcls
    simp [callback_message, dispatch, ht, hm, hd, hcls]

/-- C9 witness: an unsolicited `DATA_UPDATE` for module `cpu` with an
array payload is delivered as the element-wise list of `CPU` instances. -/
theorem data_update_push_decoding_witness :
    (callback_message false true []
        ⟨none, "DATA_UPDATE", none, some "cpu", none,
          some (.arr [⟨[("a", "1")]⟩, ⟨[("a", "2")]⟩])⟩).callbackCalls
      = [("cpu", .list [⟨"CPU", ⟨[("a", "1")]⟩⟩, ⟨"CPU", ⟨[("a", "2")]⟩⟩])] :=
  (data_update_push_decoding false []
    ⟨none, "DATA_UPDATE", none, some "cpu", none,
      some (.arr [⟨[("a", "1")]⟩, ⟨[("a", "2")]⟩])⟩
    "cpu" (.arr [⟨[("a", "1")]⟩, ⟨[("a", "2")]⟩])
    rfl rfl rfl rfl).2.2.1 "CPU" [⟨[("a", "1")]⟩, ⟨[("a", "2")]⟩] rfl rfl

/-- C10 (confirmed): every error kind of `exceptions.py` is declared as a
direct subclass of `BaseException` (not of `Exception`), so a blanket
`except Exception` handler catches none of the library's errors. -/
theorem exceptions_subclass_base_exception :
    libraryExceptions.all
        (fun c => decide (parentOf c = some .baseExceptionCls)
          && !(caughtByExceptException c)) = true := by
  decide

end SystemBridge
